import Mathlib

/-!
Shallow embedding of the subscription state machine of the squarelet
repository (`squarelet/organizations/models.py` and
`squarelet/organizations/tasks.py`), together with proofs of the
spec-level properties of the four `set_subscription` transition
branches, the webhook handlers and the monthly rollover job.

Dates are modelled as day counts (`Nat`); remote gateway behaviour is
modelled by a `Gateway` record of outcomes for the stripe calls an
operation may issue.
-/

namespace Squarelet

/-- The `Plan` model (models.py): the fields the subscription logic reads. -/
structure Plan where
  slug : String
  base_price : Nat
  price_per_user : Nat
  feature_level : Nat
  annual : Bool
  minimum_users : Nat
deriving DecidableEq, Repr

/-- Embedding of `Plan.free` (models.py): `base_price == 0 and price_per_user == 0`. -/
def Plan.free (p : Plan) : Bool :=
  p.base_price == 0 && p.price_per_user == 0

/-- Embedding of `Plan.cost` (models.py):
`base_price + max(users - minimum_users, 0) * price_per_user`. -/
def Plan.cost (p : Plan) (users : Int) : Int :=
  p.base_price + max (users - p.minimum_users) 0 * p.price_per_user

/-- The `Organization` model (models.py): the billing fields. -/
structure Organization where
  plan : Plan
  next_plan : Plan
  max_users : Int
  /-- Field `update_on`: nullable date of the next rollover. -/
  update_on : Option Nat
  customer_id : Option String
  subscription_id : Option String
  payment_failed : Bool
  individual : Bool
deriving DecidableEq, Repr

/-- The `OrganizationChangeLog.reason` choices: CREATED / UPDATED / FAILED. -/
inductive ChangeReason
  | created
  | updated
  | failed
deriving DecidableEq, Repr

/-- The `OrganizationChangeLog` model (models.py): one append-only audit row. -/
structure OrganizationChangeLog where
  user : Option String
  reason : ChangeReason
  from_plan : Plan
  from_next_plan : Plan
  from_max_users : Int
  to_plan : Plan
  to_next_plan : Plan
  to_max_users : Int
deriving DecidableEq, Repr

/-- Outcomes of the remote stripe calls one `set_subscription` run may
issue: whether the deferred `customer.subscriptions.create` succeeds
(and the id it returns), whether `Subscription.retrieve` finds the
remote subscription, and whether `stripe.Subscription.modify`
succeeds. -/
structure Gateway where
  create_ok : Bool
  new_subscription_id : String
  retrieve_found : Bool
  modify_ok : Bool
deriving DecidableEq, Repr

/-- A gateway error surfaced to the caller of `set_subscription`
(a `stripe.error` raised by `stripe.Subscription.modify`). -/
inductive GatewayError
  | modifyFailed
deriving DecidableEq, Repr

/-- One calendar month later, as in `relativedelta(months=1)` and
`Interval("1 month")`.  The development relies only on the result being a
strictly later date; a month is modelled as 30 days. -/
def addMonth (d : Nat) : Nat := d + 30

/-- Embedding of `Organization._create_subscription` (models.py): sets
`plan = next_plan = plan`, `max_users`, `update_on = today + 1 month`
and saves; the stripe `subscriptions.create` call runs in a
`transaction.on_commit` callback, i.e. only after the local state is
committed, so its failure cannot roll the local fields back — it only
leaves `subscription_id` unset. -/
def createSubscription (today : Nat) (gw : Gateway) (o : Organization)
    (p : Plan) (max_users : Int) : Organization :=
  let o1 := { o with
    plan := p
    next_plan := p
    max_users := max_users
    update_on := some (addMonth today) }
  if gw.create_ok then
    { o1 with subscription_id := some gw.new_subscription_id }
  else
    o1

/-- Embedding of `Organization._cancel_subscription` (models.py): if
`self.subscription` resolves to a remote subscription
(`subscription_id` set and the remote retrieve finds it), mark it to
cancel at period end and clear `subscription_id`; otherwise only log
the anomaly.  In both cases set `next_plan = plan` and save. -/
def cancelSubscription (gw : Gateway) (o : Organization) (p : Plan) :
    Organization :=
  if o.subscription_id.isSome && gw.retrieve_found then
    { o with subscription_id := none, next_plan := p }
  else
    { o with next_plan := p }

/-- Embedding of `Organization._modify_plan` (models.py): upgrade (feature_level
not lower) applies immediately (`plan = next_plan = plan`), downgrade
only sets `next_plan`; `max_users` is always set immediately. -/
def modifyPlan (o : Organization) (p : Plan) (max_users : Int) :
    Organization :=
  if p.feature_level ≥ o.plan.feature_level then
    { o with plan := p, next_plan := p, max_users := max_users }
  else
    { o with next_plan := p, max_users := max_users }

/-- Embedding of `Organization._modify_subscription` (models.py): if
`self.subscription` is missing, fall back to
`_create_subscription`; otherwise issue `stripe.Subscription.modify`
(whose failure raises, aborting the operation) and then apply
`_modify_plan`. -/
def modifySubscription (today : Nat) (gw : Gateway) (o : Organization)
    (p : Plan) (max_users : Int) : Except GatewayError Organization :=
  if o.subscription_id.isSome && gw.retrieve_found then
    if gw.modify_ok then
      Except.ok (modifyPlan o p max_users)
    else
      Except.error GatewayError.modifyFailed
  else
    Except.ok (createSubscription today gw o p max_users)

/-- The transition dispatch of `Organization.set_subscription`
(models.py): one of the four branches chosen by
`(self.plan.free(), plan.free())`. -/
def setSubscriptionBranch (today : Nat) (gw : Gateway) (o0 : Organization)
    (p : Plan) (max_users : Int) : Except GatewayError Organization :=
  if o0.plan.free && !p.free then
    Except.ok (createSubscription today gw o0 p max_users)
  else if !o0.plan.free && p.free then
    Except.ok (cancelSubscription gw o0 p)
  else if !o0.plan.free && !p.free then
    modifySubscription today gw o0 p max_users
  else
    Except.ok (modifyPlan o0 p max_users)

/-- The body of `Organization.set_subscription` (models.py) after the
card save and the `individual` max_users forcing: record the pre-call
plan/next_plan/max_users, dispatch to one of the four transition
helpers, and append exactly one `OrganizationChangeLog` row with
`reason = UPDATED` snapshotting before and after. -/
def setSubscriptionCore (today : Nat) (gw : Gateway) (o0 : Organization)
    (p : Plan) (max_users : Int) (user : Option String) :
    Except GatewayError (Organization × List OrganizationChangeLog) :=
  match setSubscriptionBranch today gw o0 p max_users with
  | Except.error e => Except.error e
  | Except.ok o1 =>
      Except.ok (o1,
        [{ user := user
           reason := ChangeReason.updated
           from_plan := o0.plan
           from_next_plan := o0.next_plan
           from_max_users := o0.max_users
           to_plan := o1.plan
           to_next_plan := o1.next_plan
           to_max_users := o1.max_users }])

/-- Embedding of `Organization.set_subscription` (models.py): force `max_users = 1`
for individual organizations, save the card if a token is supplied
(`save_card` clears `payment_failed`), then run the transition body. -/
def set_subscription (today : Nat) (gw : Gateway) (o : Organization)
    (token : Option String) (p : Plan) (max_users : Int)
    (user : Option String) :
    Except GatewayError (Organization × List OrganizationChangeLog) :=
  setSubscriptionCore today gw
    (if token.isSome then { o with payment_failed := false } else o) p
    (if o.individual then 1 else max_users) user

/-- Embedding of `Organization.subscription_cancelled` (models.py): append a
change-log row with `reason = FAILED` recording the forced downgrade
to the free plan (with `to_max_users = max_users` unchanged), then
clear `subscription_id` and set `plan = next_plan = free_plan`.
`update_on` is not touched. -/
def subscription_cancelled (o : Organization) (free_plan : Plan) :
    Organization × OrganizationChangeLog :=
  ({ o with
      subscription_id := none
      plan := free_plan
      next_plan := free_plan },
   { user := none
     reason := ChangeReason.failed
     from_plan := o.plan
     from_next_plan := o.next_plan
     from_max_users := o.max_users
     to_plan := free_plan
     to_next_plan := free_plan
     to_max_users := o.max_users })

/-- Embedding of `handle_invoice_failed` (tasks.py), after the organization has been
resolved by customer id: set `payment_failed = True` and save; on the
4th attempt call `subscription_cancelled` and mail "Your subscription
has been cancelled", otherwise mail "Your payment has failed".
Returns the updated organization, the appended change-log rows and the
mail subjects sent. -/
def handle_invoice_failed (o : Organization) (free_plan : Plan)
    (attempt_count : Nat) :
    Organization × List OrganizationChangeLog × List String :=
  let o1 := { o with payment_failed := true }
  if attempt_count == 4 then
    let r := subscription_cancelled o1 free_plan
    (r.1, [r.2], ["Your subscription has been cancelled"])
  else
    (o1, [], ["Your payment has failed"])

/-- The filter of `restore_organization` (tasks.py):
`update_on__lte=date.today()`. -/
def rolloverSelects (today : Nat) (o : Organization) : Bool :=
  match o.update_on with
  | some d => d ≤ today
  | none => false

/-- The per-row effect of the two bulk updates of
`restore_organization` (tasks.py): a selected organization whose
`next_plan` is free gets `update_on = None, plan = next_plan`; a
selected organization whose `next_plan` is not free gets
`update_on = today + 1 month, plan = next_plan`; an unselected row is
untouched. -/
def restore_step (today : Nat) (o : Organization) : Organization :=
  if rolloverSelects today o then
    if o.next_plan.free then
      { o with plan := o.next_plan, update_on := none }
    else
      { o with plan := o.next_plan, update_on := some (addMonth today) }
  else
    o

/-- Embedding of `restore_organization` (tasks.py): the daily rollover job, as the
bulk update applied to every organization row.  The two `.update`
calls partition the selected rows by `next_plan` freeness and do not
interfere (the first only nulls `update_on` of free-bound rows, which
the second excludes), so the job equals the row-wise map. -/
def restore_organization (today : Nat) (orgs : List Organization) :
    List Organization :=
  orgs.map (restore_step today)

/-- The `Charge` model (models.py): the fields the webhook handler writes. -/
structure Charge where
  amount : Nat
  fee_amount : Nat
  customer : String
  created_at : Nat
  charge_id : String
  description : String
deriving DecidableEq, Repr

/-- Payload of a `charge.succeeded` webhook event (tasks.py / spec §6):
`{id, customer, amount, invoice?, description, metadata, created}`. -/
structure ChargeEvent where
  id : String
  customer : Option String
  amount : Nat
  invoice : Option String
  description : String
  metadata_action : Option String
  metadata_fee_amount : Nat
  created : Nat
deriving DecidableEq, Repr

/-- The first line item of a stripe invoice, as read by
`handle_charge_succeeded`: its plan id and the plan/product name used
for the charge description. -/
structure InvoiceLine where
  plan_id : String
  plan_name : String
deriving DecidableEq, Repr

/-- The persistent state `handle_charge_succeeded` acts on: the
`Charge` rows and the receipts dispatched so far (by charge id). -/
structure ChargeState where
  charges : List Charge
  receipts : List String
deriving DecidableEq, Repr

/-- Does the invoice line item's plan id mark a MuckRock donation or
crowdfund (`startswith(("donate", "crowdfund"))`)? -/
def isDonationPlanId (s : String) : Bool :=
  s.startsWith "donate" || s.startsWith "crowdfund"

/-- The filter of `handle_charge_succeeded` (tasks.py): drop events
with no customer, invoice line items whose plan id starts with
donate/crowdfund, and direct charges whose metadata action is
donation/crowdfund-payment. -/
def chargeFiltered (lines : String → InvoiceLine) (ev : ChargeEvent) :
    Bool :=
  match ev.customer with
  | none => true
  | some _ =>
      match ev.invoice with
      | some inv => isDonationPlanId (lines inv).plan_id
      | none =>
          ev.metadata_action == some "donation" ||
          ev.metadata_action == some "crowdfund-payment"

/-- Embedding of `get_description` of `handle_charge_succeeded` (tasks.py): the
invoice line item's plan/product name when an invoice is attached,
else the charge's own description. -/
def chargeDescription (lines : String → InvoiceLine) (ev : ChargeEvent) :
    String :=
  match ev.invoice with
  | some inv => (lines inv).plan_name
  | none => ev.description

/-- Embedding of `handle_charge_succeeded` (tasks.py): after the filter,
`Charge.objects.get_or_create(charge_id=...)` creates the row only if
no row with that charge id exists; `charge.send_receipt()` is then
called unconditionally on every delivery (the `created` flag of
`get_or_create` is discarded). -/
def handle_charge_succeeded (lines : String → InvoiceLine)
    (st : ChargeState) (ev : ChargeEvent) : ChargeState :=
  if chargeFiltered lines ev then
    st
  else
    let cust := ev.customer.getD ""
    let st1 :=
      if st.charges.any (fun c => c.charge_id == ev.id) then st
      else
        { st with charges := st.charges ++
            [{ amount := ev.amount
               fee_amount := ev.metadata_fee_amount
               customer := cust
               created_at := ev.created
               charge_id := ev.id
               description := chargeDescription lines ev }] }
    { st1 with receipts := st1.receipts ++ [ev.id] }

/-- Errors raised by `Invitation.accept` / `Invitation.reject`
(models.py): the two `ValueError`s. -/
inductive InvitationError
  | missingUser
  | alreadyClosed
deriving DecidableEq, Repr

/-- The `Invitation` model (models.py): the lifecycle fields. -/
structure Invitation where
  user : Option String
  email : String
  request : Bool
  accepted_at : Option Nat
  rejected_at : Option Nat
deriving DecidableEq, Repr

/-- Embedding of `Invitation.accept` (models.py): raise if no user is available;
raise if `accepted_at` or `rejected_at` is already set; otherwise fill
in the user if needed and set `accepted_at = now`. -/
def Invitation.accept (inv : Invitation) (user : Option String)
    (now : Nat) : Except InvitationError Invitation :=
  if inv.user == none && user == none then
    Except.error InvitationError.missingUser
  else if inv.accepted_at.isSome || inv.rejected_at.isSome then
    Except.error InvitationError.alreadyClosed
  else
    let inv1 := if inv.user == none then { inv with user := user } else inv
    Except.ok { inv1 with accepted_at := some now }

/-- Embedding of `Invitation.reject` (models.py): raise if `accepted_at` or
`rejected_at` is already set; otherwise set `rejected_at = now`. -/
def Invitation.reject (inv : Invitation) (now : Nat) :
    Except InvitationError Invitation :=
  if inv.accepted_at.isSome || inv.rejected_at.isSome then
    Except.error InvitationError.alreadyClosed
  else
    Except.ok { inv with rejected_at := some now }

/-- The spec's data-model invariant:
`update_on is null ⇔ plan.free() ∧ next_plan.free()`. -/
def updateOnInvariant (o : Organization) : Bool :=
  o.update_on.isNone == (o.plan.free && o.next_plan.free)

/-- Reachability side invariant of the transition system: a free
current plan never has a paid plan pending (`plan.free() →
next_plan.free()`). -/
def planReachInvariant (o : Organization) : Bool :=
  !o.plan.free || o.next_plan.free

/-- Conjunction of the `update_on` invariant and the reachability side
invariant; this conjunction is inductive for `set_subscription` and
the rollover job. -/
def fullInvariant (o : Organization) : Bool :=
  updateOnInvariant o && planReachInvariant o

/-- Projection: the organization state of a successful
`set_subscription` result. -/
def okOrg
    (r : Except GatewayError (Organization × List OrganizationChangeLog)) :
    Option Organization :=
  match r with
  | Except.ok x => some x.1
  | Except.error _ => none

/-- Projection: the change-log rows of a successful `set_subscription`
result. -/
def okLogs
    (r : Except GatewayError (Organization × List OrganizationChangeLog)) :
    Option (List OrganizationChangeLog) :=
  match r with
  | Except.ok x => some x.2
  | Except.error _ => none

/-- The free plan of the spec scenarios (`slug="free"`). -/
def freePlan : Plan :=
  { slug := "free", base_price := 0, price_per_user := 0
    feature_level := 0, annual := false, minimum_users := 1 }

/-- The "pro" plan of the spec scenarios (base_price=1000,
feature_level=2). -/
def proPlan : Plan :=
  { slug := "pro", base_price := 1000, price_per_user := 10
    feature_level := 2, annual := false, minimum_users := 1 }

/-- The "basic" plan of the spec scenarios (feature_level=1). -/
def basicPlan : Plan :=
  { slug := "basic", base_price := 500, price_per_user := 5
    feature_level := 1, annual := false, minimum_users := 1 }

/-- A concrete organization on the free plan. -/
def exFreeOrg : Organization :=
  { plan := freePlan, next_plan := freePlan, max_users := 5
    update_on := none, customer_id := some "cus_1"
    subscription_id := none, payment_failed := false, individual := false }

/-- A concrete organization on the paid "pro" plan with an active
remote subscription and a pending rollover date. -/
def exProOrg : Organization :=
  { plan := proPlan, next_plan := proPlan, max_users := 5
    update_on := some 100, customer_id := some "cus_2"
    subscription_id := some "sub_1", payment_failed := false
    individual := false }

/-- A gateway on which every remote call succeeds. -/
def gwOk : Gateway :=
  { create_ok := true, new_subscription_id := "sub_new"
    retrieve_found := true, modify_ok := true }

/-- A gateway on which the deferred `subscriptions.create` call fails. -/
def gwCreateFail : Gateway := { gwOk with create_ok := false }

/-- A gateway on which `Subscription.retrieve` does not find the
remote subscription. -/
def gwNotFound : Gateway := { gwOk with retrieve_found := false }

/-- The state of `exFreeOrg` after `set_subscription` to the pro plan
with 3 seats on day 0 against `gwOk`. -/
def exUpgradedOrg : Organization :=
  { plan := proPlan, next_plan := proPlan, max_users := 3
    update_on := some 30, customer_id := some "cus_1"
    subscription_id := some "sub_new", payment_failed := false
    individual := false }

/-- The change-log row appended by that upgrade. -/
def exUpgradeLog : OrganizationChangeLog :=
  { user := none, reason := ChangeReason.updated
    from_plan := freePlan, from_next_plan := freePlan, from_max_users := 5
    to_plan := proPlan, to_next_plan := proPlan, to_max_users := 3 }

/-- A concrete pending invitation. -/
def exInvOpen : Invitation :=
  { user := some "alice", email := "alice@example.com", request := false
    accepted_at := none, rejected_at := none }

/-- A concrete invitation already accepted (terminal). -/
def exInvClosed : Invitation := { exInvOpen with accepted_at := some 7 }

/-- An organization due for rollover onto the free plan. -/
def exDueFreeOrg : Organization :=
  { plan := proPlan, next_plan := freePlan, max_users := 5
    update_on := some 5, customer_id := some "cus_3"
    subscription_id := none, payment_failed := false, individual := false }

/-- An organization due for rollover staying on a paid plan. -/
def exDuePaidOrg : Organization :=
  { plan := proPlan, next_plan := proPlan, max_users := 5
    update_on := some 5, customer_id := some "cus_4"
    subscription_id := some "sub_4", payment_failed := false
    individual := false }

/-- An invoice-line lookup returning a line item that is neither a
donation nor a crowdfund. -/
def noLines : String → InvoiceLine :=
  fun _ => { plan_id := "squarelet_plan_pro", plan_name := "Pro" }

/-- A concrete unfiltered `charge.succeeded` payload: it has a
customer, no invoice and no donation/crowdfund metadata. -/
def exChargeEvent : ChargeEvent :=
  { id := "ch_1", customer := some "cus_2", amount := 2500
    invoice := none, description := "Professional"
    metadata_action := none, metadata_fee_amount := 0, created := 0 }

/-- The empty charge store. -/
def emptyChargeState : ChargeState := { charges := [], receipts := [] }

/-! ### Invariant preservation lemmas -/

/-- Helper: `_create_subscription` establishes the invariant whenever the new
plan is paid: it sets a non-null `update_on` and a paid
`plan = next_plan`. -/
theorem fullInvariant_createSubscription (today : Nat) (gw : Gateway)
    (o : Organization) (p : Plan) (mu : Int) (hp : p.free = false) :
    fullInvariant (createSubscription today gw o p mu) = true := by
  unfold createSubscription
  split <;>
    simp [fullInvariant, updateOnInvariant, planReachInvariant, hp]

/-- Helper: `_cancel_subscription` preserves the invariant when the current
plan is paid: `plan` and `update_on` are untouched. -/
theorem fullInvariant_cancelSubscription (gw : Gateway)
    (o : Organization) (p : Plan) (hop : o.plan.free = false)
    (hinv : fullInvariant o = true) :
    fullInvariant (cancelSubscription gw o p) = true := by
  simp [fullInvariant, updateOnInvariant, planReachInvariant, hop] at hinv
  unfold cancelSubscription
  split <;>
    simp [fullInvariant, updateOnInvariant, planReachInvariant, hop, hinv]

/-- Helper: `_modify_plan` preserves the invariant whenever the new plan has
the same freeness as the current one (which holds on both call sites:
free→free directly, paid→paid through `_modify_subscription`). -/
theorem fullInvariant_modifyPlan (o : Organization) (p : Plan) (mu : Int)
    (heq : p.free = o.plan.free) (hinv : fullInvariant o = true) :
    fullInvariant (modifyPlan o p mu) = true := by
  unfold modifyPlan
  cases hf : o.plan.free with
  | true =>
      simp [fullInvariant, updateOnInvariant, planReachInvariant, hf] at hinv
      split <;>
        simp [fullInvariant, updateOnInvariant, planReachInvariant,
          heq, hf, hinv]
  | false =>
      simp [fullInvariant, updateOnInvariant, planReachInvariant, hf] at hinv
      split <;>
        simp [fullInvariant, updateOnInvariant, planReachInvariant,
          heq, hf, hinv]

/-- Helper: `_modify_subscription` preserves the invariant on a paid→paid
transition: either it delegates to `_modify_plan` or it falls back to
`_create_subscription`. -/
theorem fullInvariant_modifySubscription (today : Nat) (gw : Gateway)
    (o : Organization) (p : Plan) (mu : Int) (o1 : Organization)
    (hop : o.plan.free = false) (hp : p.free = false)
    (hinv : fullInvariant o = true)
    (h : modifySubscription today gw o p mu = Except.ok o1) :
    fullInvariant o1 = true := by
  unfold modifySubscription at h
  split at h
  · split at h
    · cases h
      exact fullInvariant_modifyPlan o p mu (hp.trans hop.symm) hinv
    · cases h
  · cases h
    exact fullInvariant_createSubscription today gw o p mu hp

/-- Every successful branch of `set_subscription` preserves the
invariant. -/
theorem fullInvariant_branch (today : Nat) (gw : Gateway)
    (o0 : Organization) (p : Plan) (mu : Int) (o1 : Organization)
    (hinv : fullInvariant o0 = true)
    (h : setSubscriptionBranch today gw o0 p mu = Except.ok o1) :
    fullInvariant o1 = true := by
  unfold setSubscriptionBranch at h
  cases h1 : o0.plan.free with
  | true =>
      cases h2 : p.free with
      | true =>
          simp [h1, h2] at h
          cases h
          exact fullInvariant_modifyPlan o0 p mu (h2.trans h1.symm) hinv
      | false =>
          simp [h1, h2] at h
          cases h
          exact fullInvariant_createSubscription today gw o0 p mu h2
  | false =>
      cases h2 : p.free with
      | true =>
          simp [h1, h2] at h
          cases h
          exact fullInvariant_cancelSubscription gw o0 p h1 hinv
      | false =>
          simp [h1, h2] at h
          exact fullInvariant_modifySubscription today gw o0 p mu o1
            h1 h2 hinv h

/-- The invariant does not depend on `payment_failed`, so `save_card`
preserves it. -/
theorem fullInvariant_clear_payment_failed (o : Organization) :
    fullInvariant { o with payment_failed := false } = fullInvariant o :=
  rfl

/-- One row of the rollover bulk update preserves the invariant. -/
theorem fullInvariant_restore_step (today : Nat) (o : Organization)
    (hinv : fullInvariant o = true) :
    fullInvariant (restore_step today o) = true := by
  unfold restore_step
  split
  · split <;>
      rename_i hfree <;>
      simp [fullInvariant, updateOnInvariant, planReachInvariant, hfree]
  · exact hinv

/-- After one rollover run no row still matches the
`update_on <= today` filter: free-bound rows got `update_on = None`
and paid-bound rows got `update_on = today + 1 month`, a strictly
later date. -/
theorem rolloverSelects_restore_step (today : Nat) (o : Organization) :
    rolloverSelects today (restore_step today o) = false := by
  unfold restore_step
  cases hsel : rolloverSelects today o with
  | false => simpa using hsel
  | true =>
      rw [if_pos rfl]
      cases hfree : o.next_plan.free with
      | true => simp [hfree, rolloverSelects]
      | false =>
          simp only [hfree, if_neg, Bool.false_eq_true, not_false_iff,
            if_false]
          simp [rolloverSelects, addMonth]

/-! ### Claim theorems -/

/-- C1 (corrected): the claim as stated is false — the payment-failed
auto-downgrade `subscription_cancelled` does not restore the
invariant: on an organization on a paid plan (hence with a non-null
`update_on`, here `exProOrg` with `update_on = some 100`) it sets
`plan = next_plan = free_plan` while leaving `update_on` non-null, so
`update_on is null ⇔ plan.free() ∧ next_plan.free()` fails afterwards
even though it held before. -/
theorem subscription_cancelled_breaks_update_on_invariant :
    updateOnInvariant exProOrg = true ∧
    updateOnInvariant (subscription_cancelled exProOrg freePlan).1 = false := by
  decide

/-- C1 (amended): after every successful `set_subscription` call (any
of its four branches, any gateway behaviour) and after every run of
the rollover job, the invariant `update_on is null ⇔ plan.free() ∧
next_plan.free()` holds, provided it held beforehand (together with
the reachability invariant `plan.free() → next_plan.free()`);
`subscription_cancelled` is excluded — it can leave the invariant
broken until the next rollover run. -/
theorem set_subscription_rollover_preserve_invariant
    (today : Nat) (gw : Gateway) (o : Organization)
    (token : Option String) (p : Plan) (mu : Int) (u : Option String)
    (orgs : List Organization)
    (hinv : fullInvariant o = true)
    (hall : ∀ x ∈ orgs, fullInvariant x = true) :
    (∀ o' logs,
        set_subscription today gw o token p mu u = Except.ok (o', logs) →
        fullInvariant o' = true) ∧
    (∀ o' ∈ restore_organization today orgs, fullInvariant o' = true) := by
  constructor
  · intro o' logs h
    unfold set_subscription setSubscriptionCore at h
    have hinv0 :
        fullInvariant
          (if token.isSome then { o with payment_failed := false } else o) =
          true := by
      split
      · exact (fullInvariant_clear_payment_failed o).trans hinv
      · exact hinv
    rcases hbr : setSubscriptionBranch today gw
        (if token.isSome then { o with payment_failed := false } else o) p
        (if o.individual then 1 else mu) with e | o1
    · rw [hbr] at h
      cases h
    · rw [hbr] at h
      cases h
      exact fullInvariant_branch today gw _ p _ _ hinv0 hbr
  · intro o' ho'
    unfold restore_organization at ho'
    rcases List.mem_map.mp ho' with ⟨x, hx, rfl⟩
    exact fullInvariant_restore_step today x (hall x hx)

/-- Witness for C1 (amended): the invariant holds concretely after the
free→paid transition of `exFreeOrg` to the pro plan. -/
theorem set_subscription_rollover_preserve_invariant_witness :
    fullInvariant exUpgradedOrg = true :=
  (set_subscription_rollover_preserve_invariant 0 gwOk exFreeOrg none
      proPlan 3 none [] (by decide) (by simp)).1
    exUpgradedOrg [exUpgradeLog] (by rfl)

/-- C10 (confirmed): `subscription_cancelled` leaves `max_users`
unchanged (and its change-log row has `to_max_users =
from_max_users`); among the billing fields it modifies only `plan`,
`next_plan` and `subscription_id`, leaving `payment_failed`,
`customer_id`, `max_users` (and `update_on`, `individual`)
untouched. -/
theorem subscription_cancelled_frame (o : Organization) (fp : Plan) :
    (subscription_cancelled o fp).1.max_users = o.max_users ∧
    (subscription_cancelled o fp).2.to_max_users =
      (subscription_cancelled o fp).2.from_max_users ∧
    (subscription_cancelled o fp).1.payment_failed = o.payment_failed ∧
    (subscription_cancelled o fp).1.customer_id = o.customer_id ∧
    (subscription_cancelled o fp).1.update_on = o.update_on ∧
    (subscription_cancelled o fp).1.individual = o.individual ∧
    (subscription_cancelled o fp).1.plan = fp ∧
    (subscription_cancelled o fp).1.next_plan = fp ∧
    (subscription_cancelled o fp).1.subscription_id = none := by
  simp [subscription_cancelled]

/-- C4 (confirmed): for a resolvable organization, an
`invoice.payment_failed` event with `attempt_count = 4` sets
`plan = next_plan = free plan`, clears `subscription_id`, sets
`payment_failed`, and appends exactly one change-log row with
`reason = PaymentFailed` recording the forced downgrade; any other
`attempt_count` sets `payment_failed` but leaves `plan`, `next_plan`,
`subscription_id` and `max_users` untouched and appends no row. -/
theorem handle_invoice_failed_spec (o : Organization) (fp : Plan)
    (n : Nat) :
    (n = 4 →
      (handle_invoice_failed o fp n).1.plan = fp ∧
      (handle_invoice_failed o fp n).1.next_plan = fp ∧
      (handle_invoice_failed o fp n).1.subscription_id = none ∧
      (handle_invoice_failed o fp n).1.payment_failed = true ∧
      (handle_invoice_failed o fp n).2.1 =
        [{ user := none
           reason := ChangeReason.failed
           from_plan := o.plan
           from_next_plan := o.next_plan
           from_max_users := o.max_users
           to_plan := fp
           to_next_plan := fp
           to_max_users := o.max_users }]) ∧
    (n ≠ 4 →
      (handle_invoice_failed o fp n).1.payment_failed = true ∧
      (handle_invoice_failed o fp n).1.plan = o.plan ∧
      (handle_invoice_failed o fp n).1.next_plan = o.next_plan ∧
      (handle_invoice_failed o fp n).1.subscription_id = o.subscription_id ∧
      (handle_invoice_failed o fp n).1.max_users = o.max_users ∧
      (handle_invoice_failed o fp n).2.1 = []) := by
  constructor
  · intro h
    subst h
    simp [handle_invoice_failed, subscription_cancelled]
  · intro h
    simp [handle_invoice_failed, subscription_cancelled, h]

/-- Witness for C4: the 4th failure downgrades `exProOrg` to the free
plan and logs one PaymentFailed row; the 2nd failure leaves its plan
untouched. -/
theorem handle_invoice_failed_spec_witness :
    ((handle_invoice_failed exProOrg freePlan 4).1.plan = freePlan ∧
      (handle_invoice_failed exProOrg freePlan 4).2.1 =
        [{ user := none
           reason := ChangeReason.failed
           from_plan := exProOrg.plan
           from_next_plan := exProOrg.next_plan
           from_max_users := exProOrg.max_users
           to_plan := freePlan
           to_next_plan := freePlan
           to_max_users := exProOrg.max_users }]) ∧
    (handle_invoice_failed exProOrg freePlan 2).1.plan = exProOrg.plan := by
  refine ⟨⟨?_, ?_⟩, ?_⟩
  · exact ((handle_invoice_failed_spec exProOrg freePlan 4).1 rfl).1
  · exact ((handle_invoice_failed_spec exProOrg freePlan 4).1 rfl).2.2.2.2
  · exact ((handle_invoice_failed_spec exProOrg freePlan 2).2
      (by decide)).2.1

/-- C6 (confirmed): every successful `set_subscription` call, on every
branch, appends exactly one change-log row with `reason = Updated`,
actor = the acting user (nullable), `from_*` fields equal to the
pre-call plan/next_plan/max_users and `to_*` fields equal to the
post-call values. -/
theorem set_subscription_changelog (today : Nat) (gw : Gateway)
    (o : Organization) (token : Option String) (p : Plan) (mu : Int)
    (u : Option String) (o' : Organization)
    (logs : List OrganizationChangeLog)
    (h : set_subscription today gw o token p mu u = Except.ok (o', logs)) :
    logs = [{ user := u
              reason := ChangeReason.updated
              from_plan := o.plan
              from_next_plan := o.next_plan
              from_max_users := o.max_users
              to_plan := o'.plan
              to_next_plan := o'.next_plan
              to_max_users := o'.max_users }] := by
  unfold set_subscription setSubscriptionCore at h
  rcases hbr : setSubscriptionBranch today gw
      (if token.isSome then { o with payment_failed := false } else o) p
      (if o.individual then 1 else mu) with e | o1
  · rw [hbr] at h
    cases h
  · rw [hbr] at h
    injection h with h
    injection h with ho hl
    subst ho
    subst hl
    split <;> rfl

/-- Witness for C6: the concrete free→paid upgrade of `exFreeOrg`
appends exactly the expected row. -/
theorem set_subscription_changelog_witness :
    [exUpgradeLog] =
      [{ user := none
         reason := ChangeReason.updated
         from_plan := exFreeOrg.plan
         from_next_plan := exFreeOrg.next_plan
         from_max_users := exFreeOrg.max_users
         to_plan := exUpgradedOrg.plan
         to_next_plan := exUpgradedOrg.next_plan
         to_max_users := exUpgradedOrg.max_users }] :=
  set_subscription_changelog 0 gwOk exFreeOrg none proPlan 3 none
    exUpgradedOrg [exUpgradeLog] (by rfl)

/-- C8 (confirmed): one run of the rollover job is the row-wise map of
`restore_step`; it leaves every organization with `update_on` absent
or in the future untouched, commits `plan = next_plan` with
`update_on = None` for due free-bound organizations and with
`update_on = today + 1 month` for due paid-bound ones (changing
`update_on` of every due row), and a re-run on the same day selects
zero organizations. -/
theorem restore_organization_spec (today : Nat)
    (orgs : List Organization) :
    restore_organization today orgs = orgs.map (restore_step today) ∧
    (∀ o : Organization, rolloverSelects today o = false →
      restore_step today o = o) ∧
    (∀ o : Organization, rolloverSelects today o = true →
      (o.next_plan.free = true →
        restore_step today o =
          { o with plan := o.next_plan, update_on := none }) ∧
      (o.next_plan.free = false →
        restore_step today o =
          { o with plan := o.next_plan
                   update_on := some (addMonth today) }) ∧
      (restore_step today o).update_on ≠ o.update_on) ∧
    (∀ o' ∈ restore_organization today orgs,
      rolloverSelects today o' = false) := by
  refine ⟨rfl, ?_, ?_, ?_⟩
  · intro o hsel
    simp [restore_step, hsel]
  · intro o hsel
    rcases hup : o.update_on with _ | d
    · simp [rolloverSelects, hup] at hsel
    · have hd : d ≤ today := by
        simpa [rolloverSelects, hup] using hsel
      refine ⟨?_, ?_, ?_⟩
      · intro hfree
        simp [restore_step, hsel, hfree]
      · intro hfree
        simp [restore_step, hsel, hfree]
      · simp only [restore_step, if_pos hsel]
        split
        · simp [hup]
        · simp only [hup, addMonth]
          intro hcontra
          injection hcontra with hcontra
          omega
  · intro o' ho'
    rcases List.mem_map.mp ho' with ⟨x, _, rfl⟩
    exact rolloverSelects_restore_step today x

/-- Witness for C8: the concrete rollover of a due free-bound and a
due paid-bound organization on day 10. -/
theorem restore_organization_spec_witness :
    (restore_step 10 exDueFreeOrg =
      { exDueFreeOrg with plan := exDueFreeOrg.next_plan
                          update_on := none }) ∧
    (restore_step 10 exDuePaidOrg =
      { exDuePaidOrg with plan := exDuePaidOrg.next_plan
                          update_on := some (addMonth 10) }) := by
  refine ⟨?_, ?_⟩
  · exact ((restore_organization_spec 10 []).2.2.1 exDueFreeOrg
      (by decide)).1 (by decide)
  · exact ((restore_organization_spec 10 []).2.2.1 exDuePaidOrg
      (by decide)).2.1 (by decide)

/-- C9 (confirmed): once `accepted_at` or `rejected_at` is non-null
the invitation is terminal: any later `accept` or `reject` raises (the
embedding is pure, so the stored timestamps are trivially unchanged on
an error); a successful `accept` sets `accepted_at = now` (making the
invitation terminal, so a second `accept` raises, with `accepted_at`
identical between the calls) and a successful `reject` sets
`rejected_at = now`; hence `accept` and `reject` succeed at most once
in total. -/
theorem invitation_accept_reject_at_most_once :
    (∀ (inv : Invitation) (u : Option String) (now : Nat),
      inv.accepted_at.isSome = true ∨ inv.rejected_at.isSome = true →
        (∃ e, inv.accept u now = Except.error e) ∧
        inv.reject now = Except.error InvitationError.alreadyClosed) ∧
    (∀ (inv : Invitation) (u : Option String) (now : Nat)
        (inv' : Invitation),
      inv.accept u now = Except.ok inv' →
        inv'.accepted_at = some now ∧
        inv'.rejected_at = inv.rejected_at) ∧
    (∀ (inv : Invitation) (now : Nat) (inv' : Invitation),
      inv.reject now = Except.ok inv' →
        inv'.rejected_at = some now ∧
        inv'.accepted_at = inv.accepted_at) := by
  have hterm : ∀ inv : Invitation,
      inv.accepted_at.isSome = true ∨ inv.rejected_at.isSome = true →
      (inv.accepted_at.isSome || inv.rejected_at.isSome) = true := by
    intro inv h
    rcases h with h | h <;> simp [h]
  refine ⟨?_, ?_, ?_⟩
  · intro inv u now h
    constructor
    · by_cases hu : (inv.user == none && u == none) = true
      · exact ⟨InvitationError.missingUser, by simp [Invitation.accept, hu]⟩
      · exact ⟨InvitationError.alreadyClosed,
          by simp [Invitation.accept, hu, hterm inv h]⟩
    · simp [Invitation.reject, hterm inv h]
  · intro inv u now inv' h
    unfold Invitation.accept at h
    split at h
    · cases h
    · split at h
      · cases h
      · injection h with h
        subst h
        constructor
        · rfl
        · split <;> rfl
  · intro inv now inv' h
    unfold Invitation.reject at h
    split at h
    · cases h
    · injection h with h
      subst h
      exact ⟨rfl, rfl⟩

/-- Witness for C9: rejecting the already-accepted `exInvClosed`
raises, and a concrete successful accept stamps `accepted_at`. -/
theorem invitation_accept_reject_at_most_once_witness :
    Invitation.reject exInvClosed 9 =
      Except.error InvitationError.alreadyClosed ∧
    ({ exInvOpen with accepted_at := some 5 } : Invitation).accepted_at =
      some 5 := by
  refine ⟨?_, ?_⟩
  · exact (invitation_accept_reject_at_most_once.1 exInvClosed none 9
      (Or.inl (by decide))).2
  · exact (invitation_accept_reject_at_most_once.2.1 exInvOpen
      (some "bob") 5 { exInvOpen with accepted_at := some 5 } (by rfl)).1

/-- C2 (corrected): the claim as stated is false — `send_receipt` is
called unconditionally after `get_or_create` (its `created` flag is
discarded), so delivering the same unfiltered payload twice does
create exactly one Charge row but dispatches two receipts, not at most
one. -/
theorem duplicate_charge_event_second_receipt_cex :
    (handle_charge_succeeded noLines
        (handle_charge_succeeded noLines emptyChargeState exChargeEvent)
        exChargeEvent).charges.length = 1 ∧
    ¬ (handle_charge_succeeded noLines
        (handle_charge_succeeded noLines emptyChargeState exChargeEvent)
        exChargeEvent).receipts.length ≤ 1 := by
  decide

/-- C2 (amended): delivering the same unfiltered `charge.succeeded`
payload twice to a store with no charge for its id results in exactly
one Charge row keyed by the gateway charge id, but a receipt is
dispatched on every delivery — two in total, one per delivery. -/
theorem handle_charge_succeeded_twice (lines : String → InvoiceLine)
    (st : ChargeState) (ev : ChargeEvent)
    (hf : chargeFiltered lines ev = false)
    (h0 : st.charges.countP (fun c => c.charge_id == ev.id) = 0) :
    (handle_charge_succeeded lines (handle_charge_succeeded lines st ev)
        ev).charges.countP (fun c => c.charge_id == ev.id) = 1 ∧
    (handle_charge_succeeded lines (handle_charge_succeeded lines st ev)
        ev).receipts.length = st.receipts.length + 2 := by
  have hany : st.charges.any (fun c => c.charge_id == ev.id) = false := by
    rw [List.any_eq_false]
    intro x hx
    exact List.countP_eq_zero.mp h0 x hx
  have h1 : handle_charge_succeeded lines st ev =
      { charges := st.charges ++
          [{ amount := ev.amount
             fee_amount := ev.metadata_fee_amount
             customer := ev.customer.getD ""
             created_at := ev.created
             charge_id := ev.id
             description := chargeDescription lines ev }]
        receipts := st.receipts ++ [ev.id] } := by
    simp [handle_charge_succeeded, hf, hany]
  rw [h1]
  have hany2 : (st.charges ++
      [({ amount := ev.amount
          fee_amount := ev.metadata_fee_amount
          customer := ev.customer.getD ""
          created_at := ev.created
          charge_id := ev.id
          description := chargeDescription lines ev } : Charge)]).any
      (fun c => c.charge_id == ev.id) = true := by
    simp
  constructor
  · simp [handle_charge_succeeded, hf, hany2, List.countP_append, h0]
  · simp [handle_charge_succeeded, hf, hany2]

/-- Witness for C2 (amended): two deliveries of `exChargeEvent` to the
empty store leave one charge row and two receipts. -/
theorem handle_charge_succeeded_twice_witness :
    (handle_charge_succeeded noLines
        (handle_charge_succeeded noLines emptyChargeState exChargeEvent)
        exChargeEvent).charges.countP
      (fun c => c.charge_id == exChargeEvent.id) = 1 ∧
    (handle_charge_succeeded noLines
        (handle_charge_succeeded noLines emptyChargeState exChargeEvent)
        exChargeEvent).receipts.length =
      emptyChargeState.receipts.length + 2 :=
  handle_charge_succeeded_twice noLines emptyChargeState exChargeEvent
    (by decide) (by decide)

/-- C3 (corrected): the claim as stated is false — the remote
create-subscription call is issued in a `transaction.on_commit`
callback, after the local transaction is committed, so its failure
cannot roll the local state back: on `exFreeOrg` with a failing
create call, `set_subscription` to the pro plan still completes and
the committed plan is the pro plan, not the original free plan. -/
theorem free_to_paid_create_failure_cex :
    okOrg (set_subscription 0 gwCreateFail exFreeOrg none proPlan 3 none)
      ≠ none ∧
    (okOrg (set_subscription 0 gwCreateFail exFreeOrg none proPlan 3
        none)).map Organization.plan ≠ some exFreeOrg.plan := by
  decide

/-- C3 (amended): on a free→paid transition whose deferred remote
create-subscription call fails, the operation does not fail and the
committed local changes are retained — `plan = next_plan = new plan`,
`max_users` and `update_on = today + 1 month` are all kept, the
change-log row is appended, and only `subscription_id` is left
unchanged (still null), since it is set only by the post-commit
callback on success. -/
theorem free_to_paid_create_failure_keeps_local_state (today : Nat)
    (gw : Gateway) (o : Organization) (token : Option String) (p : Plan)
    (mu : Int) (u : Option String)
    (hfree : o.plan.free = true) (hp : p.free = false)
    (hfail : gw.create_ok = false) (hind : o.individual = false) :
    set_subscription today gw o token p mu u =
      Except.ok
        ({ o with
            payment_failed :=
              if token.isSome then false else o.payment_failed
            plan := p
            next_plan := p
            max_users := mu
            update_on := some (addMonth today) },
         [{ user := u
            reason := ChangeReason.updated
            from_plan := o.plan
            from_next_plan := o.next_plan
            from_max_users := o.max_users
            to_plan := p
            to_next_plan := p
            to_max_users := mu }]) := by
  unfold set_subscription setSubscriptionCore setSubscriptionBranch
    createSubscription
  cases htok : token.isSome <;>
    simp [hfree, hp, hfail, hind]

/-- Witness for C3 (amended): the failing upgrade of `exFreeOrg`. -/
theorem free_to_paid_create_failure_witness :
    set_subscription 0 gwCreateFail exFreeOrg none proPlan 3 none =
      Except.ok
        ({ exFreeOrg with
            payment_failed :=
              if (none : Option String).isSome then false
              else exFreeOrg.payment_failed
            plan := proPlan
            next_plan := proPlan
            max_users := 3
            update_on := some (addMonth 0) },
         [{ user := none
            reason := ChangeReason.updated
            from_plan := exFreeOrg.plan
            from_next_plan := exFreeOrg.next_plan
            from_max_users := exFreeOrg.max_users
            to_plan := proPlan
            to_next_plan := proPlan
            to_max_users := 3 }]) :=
  free_to_paid_create_failure_keeps_local_state 0 gwCreateFail exFreeOrg
    none proPlan 3 none (by decide) (by decide) (by decide) (by decide)

/-- C5 (corrected): the claim as stated is false — on the paid→paid
downgrade of `exProOrg` (pro, 5 seats) to the basic plan with 3
requested seats, `max_users` becomes 3 immediately rather than
staying unchanged until rollover. -/
theorem paid_downgrade_max_users_cex :
    (okOrg (set_subscription 0 gwOk exProOrg none basicPlan 3
        none)).map Organization.max_users = some 3 ∧
    exProOrg.max_users = 5 ∧ (3 : Int) ≠ 5 := by
  decide

/-- C5 (amended): on a paid→paid downgrade (new paid plan with a
strictly lower feature level, remote subscription present and the
remote modify call succeeding), the local `plan` stays unchanged and
`next_plan` is set to the new plan — the plan downgrade is deferred to
rollover — but `max_users` is set to the requested value immediately
(`_modify_plan` always assigns it). -/
theorem paid_downgrade_deferred_plan_immediate_max_users (today : Nat)
    (gw : Gateway) (o : Organization) (token : Option String) (p : Plan)
    (mu : Int) (u : Option String)
    (hop : o.plan.free = false) (hp : p.free = false)
    (hfl : p.feature_level < o.plan.feature_level)
    (hsub : o.subscription_id.isSome = true)
    (hfound : gw.retrieve_found = true) (hmod : gw.modify_ok = true)
    (hind : o.individual = false) :
    set_subscription today gw o token p mu u =
      Except.ok
        ({ o with
            payment_failed :=
              if token.isSome then false else o.payment_failed
            next_plan := p
            max_users := mu },
         [{ user := u
            reason := ChangeReason.updated
            from_plan := o.plan
            from_next_plan := o.next_plan
            from_max_users := o.max_users
            to_plan := o.plan
            to_next_plan := p
            to_max_users := mu }]) := by
  unfold set_subscription setSubscriptionCore setSubscriptionBranch
    modifySubscription modifyPlan
  cases htok : token.isSome <;>
    simp [hop, hp, hsub, hfound, hmod, hind, Nat.not_le.mpr hfl]

/-- Witness for C5 (amended): the concrete downgrade of `exProOrg` to
the basic plan with 3 seats. -/
theorem paid_downgrade_deferred_witness :
    set_subscription 0 gwOk exProOrg none basicPlan 3 none =
      Except.ok
        ({ exProOrg with
            payment_failed :=
              if (none : Option String).isSome then false
              else exProOrg.payment_failed
            next_plan := basicPlan
            max_users := 3 },
         [{ user := none
            reason := ChangeReason.updated
            from_plan := exProOrg.plan
            from_next_plan := exProOrg.next_plan
            from_max_users := exProOrg.max_users
            to_plan := exProOrg.plan
            to_next_plan := basicPlan
            to_max_users := 3 }]) :=
  paid_downgrade_deferred_plan_immediate_max_users 0 gwOk exProOrg none
    basicPlan 3 none (by decide) (by decide) (by decide) (by decide)
    (by decide) (by decide) (by decide)

/-- C7 (corrected): the claim as stated is false — when the expected
remote subscription is missing, `_cancel_subscription` only logs and
does not clear `subscription_id` (the clearing sits inside the
`subscription is not None` branch): cancelling `exProOrg` against a
gateway that does not find the subscription leaves
`subscription_id = "sub_1"` instead of null. -/
theorem missing_subscription_not_cleared_cex :
    (okOrg (set_subscription 0 gwNotFound exProOrg none freePlan 5
        none)).map Organization.subscription_id =
      some (some "sub_1") ∧
    (some "sub_1" : Option String) ≠ none := by
  decide

/-- C7 (amended): on a paid→free transition, `plan` is not changed
immediately and `next_plan` is set to the free plan; the operation
never fails. When the remote subscription is found, `subscription_id`
is cleared to null; when it is missing, the anomaly is only logged,
the local cancellation (`next_plan := free`) still proceeds, but
`subscription_id` is left unchanged, not cleared. -/
theorem paid_to_free_cancel_spec (today : Nat) (gw : Gateway)
    (o : Organization) (token : Option String) (p : Plan) (mu : Int)
    (u : Option String)
    (hop : o.plan.free = false) (hp : p.free = true) :
    set_subscription today gw o token p mu u =
      Except.ok
        ((if o.subscription_id.isSome && gw.retrieve_found then
            { o with
                payment_failed :=
                  if token.isSome then false else o.payment_failed
                next_plan := p
                subscription_id := none }
          else
            { o with
                payment_failed :=
                  if token.isSome then false else o.payment_failed
                next_plan := p }),
         [{ user := u
            reason := ChangeReason.updated
            from_plan := o.plan
            from_next_plan := o.next_plan
            from_max_users := o.max_users
            to_plan := o.plan
            to_next_plan := p
            to_max_users := o.max_users }]) := by
  unfold set_subscription setSubscriptionCore setSubscriptionBranch
    cancelSubscription
  cases htok : token.isSome <;>
    cases hfound : (o.subscription_id.isSome && gw.retrieve_found) <;>
      simp [hop, hp, hfound]

/-- Witness for C7 (amended): cancelling `exProOrg` against the
gateway that does not find its remote subscription. -/
theorem paid_to_free_cancel_witness :
    set_subscription 0 gwNotFound exProOrg none freePlan 5 none =
      Except.ok
        ((if exProOrg.subscription_id.isSome &&
              gwNotFound.retrieve_found then
            { exProOrg with
                payment_failed :=
                  if (none : Option String).isSome then false
                  else exProOrg.payment_failed
                next_plan := freePlan
                subscription_id := none }
          else
            { exProOrg with
                payment_failed :=
                  if (none : Option String).isSome then false
                  else exProOrg.payment_failed
                next_plan := freePlan }),
         [{ user := none
            reason := ChangeReason.updated
            from_plan := exProOrg.plan
            from_next_plan := exProOrg.next_plan
            from_max_users := exProOrg.max_users
            to_plan := exProOrg.plan
            to_next_plan := freePlan
            to_max_users := exProOrg.max_users }]) :=
  paid_to_free_cancel_spec 0 gwNotFound exProOrg none freePlan 5 none
    (by decide) (by decide)

end Squarelet
